import Mathlib

/-!
Verification of the Sol_bot trading core: a shallow embedding of the order
store, archival passes, settings store, exchange balance query, and the
trading state machine (`trading.py`, `order_manager.py`, `config.py`,
`exchange.py`), together with theorems settling the frozen claims.

Monetary quantities and prices are modelled as exact rationals (the source
uses Python floats; none of the claims hinge on binary-float artefacts).
Timestamps are milliseconds as integers where the source stores
`int(time.time() * 1000)`, and wall-clock seconds as rationals where the
source keeps `time.time()` values.
-/

-- The kernel happily evaluates rational arithmetic, but the arithmetic
-- primitives of `Rat` are marked irreducible, which blocks `decide` from
-- evaluating concrete states of the model.  Restore their reducibility.
set_option allowUnsafeReducibility true in
attribute [semireducible] Rat.mul Rat.div Rat.add Rat.sub Rat.inv Rat.neg

/-- Round-half-to-even of a rational to an integer, matching Python `round`. -/
def roundHalfEven (x : ℚ) : ℤ :=
  let f : ℤ := ⌊x⌋
  let r : ℚ := x - f
  if r < 1/2 then f
  else if 1/2 < r then f + 1
  else if f % 2 = 0 then f else f + 1

/-- Python `round(x, d)` on our rational model. -/
def roundTo (d : ℕ) (x : ℚ) : ℚ := (roundHalfEven (x * 10 ^ d) : ℚ) / 10 ^ d

/-- `round(x, 2)` — price / quantity rounding used throughout `trading.py`. -/
def round2 (x : ℚ) : ℚ := roundTo 2 x

/-- `round(x, 4)` — amount / profit rounding used throughout `trading.py`. -/
def round4 (x : ℚ) : ℚ := roundTo 4 x

/-- Python `a or b` on optional numbers: `None` and `0.0` are falsy
(`avg_price or price` in `on_order_update`). -/
def pyOr (a b : Option ℚ) : Option ℚ :=
  match a with
  | some v => if v = 0 then b else some v
  | none => b

/-- Python truthiness of an optional number (`if buy_amount and amount and ...`). -/
def truthyQ (a : Option ℚ) : Bool :=
  match a with
  | some v => decide (v ≠ 0)
  | none => false

/-- One record of the order store, as kept in `order.json` and the archive
files.  Numeric fields are stored as strings in the JSON files; they are
written from and read back into numbers, so we model them numerically.
The JSON key `"type"` is the field `otype` here. -/
structure Order where
  order_id : String
  client_order_id : String
  side : String
  otype : String
  status : String
  quantity : ℚ
  price : ℚ
  amount : ℚ
  timestamp : ℤ
  profit : ℚ
  notified : Bool
  parent_order_id : String
  trade_type : String
deriving DecidableEq, Repr

/-- Python `str.startswith`, on the character lists of the strings
(`String.startsWith` itself does not evaluate inside the kernel). -/
def charsStart : List Char → List Char → Bool
  | [], _ => true
  | _ :: _, [] => false
  | c :: cs, d :: ds => c == d && charsStart cs ds

/-- `s.startswith(pre)`. -/
def strStarts (s pre : String) : Bool := charsStart pre.data s.data

/-- `order.get("client_order_id", "").startswith("BOT_")`. -/
def isBotOwned (o : Order) : Bool := strStarts o.client_order_id "BOT_"

/-- The filter used all over `trading.py` and `order_manager.py`:
`status == "active" and side == "SELL" and client_order_id.startswith("BOT_")`. -/
def isActiveSellBot (o : Order) : Bool :=
  o.status == "active" && o.side == "SELL" && isBotOwned o

/-- `OrderManager.transfer_completed_orders` / `archive_completed_orders`:
the set of `parent_order_id`s referenced by currently active bot-owned SELL
orders (empty parent ids are skipped — `if parent_id:`). -/
def activeSellParentIds (orders : List Order) : List String :=
  (orders.filter isActiveSellBot).filterMap
    (fun o => if o.parent_order_id = "" then none else some o.parent_order_id)

/-- The keep/archive partition computed by the startup pass
`OrderManager.transfer_completed_orders` (lines 46-94): keep an order iff it
is an active bot-owned SELL, or a completed BUY referenced by such a SELL;
archive everything else.  Returns `(active_orders, orders_to_archive)`. -/
def partitionTransfer (orders : List Order) : List Order × List Order :=
  let parents := activeSellParentIds orders
  orders.foldl
    (fun acc o =>
      if isActiveSellBot o then (acc.1 ++ [o], acc.2)
      else if o.status == "completed" && o.side == "BUY" && parents.contains o.order_id then
        (acc.1 ++ [o], acc.2)
      else (acc.1, acc.2 ++ [o]))
    ([], [])

/-- The keep/archive partition computed by the periodic pass
`OrderManager.archive_completed_orders` (lines 149-187).  `now` is
`int(datetime.now().timestamp() * 1000)`.  Note the final `else` branch of
the source archives every completed order, whatever its age. -/
def partitionArchivePass (now : ℤ) (orders : List Order) : List Order × List Order :=
  let parents := activeSellParentIds orders
  orders.foldl
    (fun acc o =>
      if isActiveSellBot o then (acc.1 ++ [o], acc.2)
      else if o.status == "completed" && o.side == "BUY" && parents.contains o.order_id then
        (acc.1 ++ [o], acc.2)
      else if o.status == "completed" && o.side == "SELL" && isBotOwned o
              && decide (now - o.timestamp > 60000) then
        (acc.1, acc.2 ++ [o])
      else if o.status == "completed" then (acc.1, acc.2 ++ [o])
      else if ¬ acc.1.contains o ∧ ¬ acc.2.contains o then (acc.1, acc.2 ++ [o])
      else acc)
    ([], [])

/-- Writing one archive file in the periodic pass (lines 198-203): an order
whose `order_id` already occurs in the file is skipped. -/
def archiveInsertDedup (existing toAdd : List Order) : List Order :=
  toAdd.foldl
    (fun ex o => if ex.any (fun e => e.order_id == o.order_id) then ex else ex ++ [o])
    existing

/-- Writing one archive file in the startup pass
`transfer_completed_orders` (lines 85-88): `existing_orders.extend(...)`,
with no duplicate check. -/
def archiveInsertTransfer (existing toAdd : List Order) : List Order :=
  existing ++ toAdd

/-- `TradingBot.sync_orders`: mark active SELL records absent from the
exchange's open-order list as completed, and drop records whose `order_id`
was already emitted (first occurrence wins). -/
def syncOrders (openIds : List String) (orders : List Order) : List Order :=
  orders.foldl
    (fun acc o =>
      let o2 := if o.status == "active" && o.side == "SELL" && ¬ openIds.contains o.order_id
                then { o with status := "completed" } else o
      if acc.any (fun p => p.order_id == o2.order_id) then acc else acc ++ [o2])
    []

/-- `TradingBot.get_used_balance`: sum, over active bot-owned SELL orders,
of the `amount` of the first stored BUY whose `order_id` equals the SELL's
`parent_order_id`. -/
def getUsedBalance (orders : List Order) : ℚ :=
  orders.foldl
    (fun acc o =>
      if isActiveSellBot o then
        match orders.find? (fun b => b.order_id == o.parent_order_id && b.side == "BUY") with
        | some b => acc + b.amount
        | none => acc
      else acc)
    0

/-- The profit computation of `on_order_update` (lines 472-475) and
`on_deal_update` (lines 993-996):
`round(sell - (buy + buy*taker/100 + sell*maker/100), 4)`. -/
def computeProfit (taker_fee_percent maker_fee_percent buyAmt sellAmt : ℚ) : ℚ :=
  round4 (sellAmt - (buyAmt + buyAmt * (taker_fee_percent / 100)
                            + sellAmt * (maker_fee_percent / 100)))

/-- `TradingBot.calculate_profit(period="month", date)` (lines 747-822),
restricted to the month window.  `orders` is the active file, `archiveOrders`
the archive file of the anchor month (empty when the file is missing),
`startMs`/`endMs` the millisecond bounds of the anchor month, and
`anchorIsCurrentMonth` the test `date.year == now.year and date.month ==
now.month`.  The source builds
`all_orders = orders.copy(); all_orders.extend(archive); if current month:
all_orders.extend(orders)` and then sums `profit` over completed bot-owned
SELL orders inside the window. -/
def calcProfitMonth (orders archiveOrders : List Order) (startMs endMs : ℤ)
    (anchorIsCurrentMonth : Bool) : ℕ × ℚ :=
  let all := orders ++ archiveOrders ++ (if anchorIsCurrentMonth then orders else [])
  let matched := all.filter
    (fun o => o.side == "SELL" && o.status == "completed" && isBotOwned o
      && decide (startMs ≤ o.timestamp) && decide (o.timestamp ≤ endMs))
  (matched.length, (matched.map (fun o => o.profit)).sum)

/-- A JSON settings value as stored in `state.json`. -/
inductive SVal where
  | num (q : ℚ)
  | str (s : String)
  | bool (b : Bool)
  | null
deriving DecidableEq, Repr

/-- `DEFAULT_SETTINGS` of `config.py`. -/
def defaultSettings : List (String × SVal) :=
  [("drop_percent", SVal.null),
   ("profit_percent", SVal.null),
   ("order_size", SVal.null),
   ("autobuy_enabled", SVal.bool false),
   ("total_profit", SVal.str "0.0"),
   ("fixed_balance_limit", SVal.null),
   ("taker_fee_percent", SVal.num (1/20)),
   ("maker_fee_percent", SVal.num 0)]

/-- The merge loop of `config.load_settings` (lines 36-39):
`settings = DEFAULT_SETTINGS.copy(); for key in DEFAULT_SETTINGS:
settings[key] = loaded_settings.get(key, DEFAULT_SETTINGS[key])`. -/
def mergeSettings (loaded defaults : List (String × SVal)) : List (String × SVal) :=
  defaults.map (fun kd => (kd.1, (loaded.lookup kd.1).getD kd.2))

/-- `config.load_settings` applied to the `"settings"` object found in a
persisted `state.json`. -/
def loadSettings (loaded : List (String × SVal)) : List (String × SVal) :=
  mergeSettings loaded defaultSettings

/-- Outcome of the HTTP balance query in `MEXCExchange.get_balance`:
a 200 response carrying the account's `(asset, free)` pairs, a non-200
response, an `aiohttp.ClientError`, or any other exception. -/
inductive BalQueryResult where
  | success (balances : List (String × ℚ))
  | httpError (status : ℕ)
  | networkError
  | unexpectedError
deriving DecidableEq, Repr

/-- `MEXCExchange.get_balance` (lines 28-56): on a 200 response return the
`free` amount of the first matching asset (0 if absent); on any non-200
response or exception return 0. -/
def getBalance (r : BalQueryResult) (asset : String) : ℚ :=
  match r with
  | BalQueryResult.success balances => (balances.lookup asset).getD 0
  | BalQueryResult.httpError _ => 0
  | BalQueryResult.networkError => 0
  | BalQueryResult.unexpectedError => 0

/-- Whether the balance query failed (non-200, network error or exception). -/
def balQueryFailed (r : BalQueryResult) : Bool :=
  match r with
  | BalQueryResult.success _ => false
  | _ => true

/-- The user-tunable settings consumed by `TradingBot` (the `settings`
dictionary of `config.py`, typed; `total_profit` lives in `BotState` as the
running sum persisted in `state.json`).  The steps below treat settings as
constant: none of the modelled entry points changes a settings value
(`start_trading` re-assigns `autobuy_enabled = True` only on a path it can
reach when the flag is already `True`). -/
structure Settings where
  drop_percent : ℚ
  profit_percent : ℚ
  order_size : ℚ
  autobuy_enabled : Bool
  fixed_balance_limit : Option ℚ
  taker_fee_percent : ℚ
  maker_fee_percent : ℚ
deriving DecidableEq, Repr

/-- `TradingState` of `trading.py`. -/
inductive TState where
  | idle
  | processing
  | awaiting_notification
deriving DecidableEq, Repr

/-- The observable state of `TradingBot` plus the files it writes:
`orders` is the content of `order.json`; `totalProfit` the `total_profit`
entry of `state.json`; `last_action_price`/`last_action_type` and the
low-balance flags are both the in-memory fields and the persisted
`trade_state.json` content.  `notifCount` counts `send_notification` calls,
`tsSaves` counts `save_trade_state` calls and `orderSaves` counts
`save_orders(order_file, ...)` calls, so that "no file was written" is
expressible.  The balance cache fields (`_usdt_balance_cache` etc.) are not
modelled: the environment of each step supplies the balance value the query
would return. -/
structure BotState where
  orders : List Order
  state : TState
  last_action_price : Option ℚ
  last_action_type : Option String
  buy_price : Option ℚ
  sell_prices : List (String × ℚ)
  order_id : Option String
  quantity : Option ℚ
  position_active : Bool
  last_buy_time : ℚ
  current_market_price : Option ℚ
  processed_deal_ids : List (String × ℚ)
  low_balance_notified : Bool
  last_notified_balance : Option ℚ
  last_notified_order_size : Option ℚ
  low_balance_notified_auto : Bool
  last_notified_order_size_auto : Option ℚ
  low_balance_limit_notified : Bool
  last_notified_limit_conditions : Option (ℚ × ℚ × ℚ)
  totalProfit : ℚ
  notifCount : ℕ
  tsSaves : ℕ
  orderSaves : ℕ
deriving DecidableEq, Repr

/-- The state of a freshly constructed bot with no prior files
(`TradingBot.__init__` + `load_state` over missing/empty files). -/
def initState : BotState :=
  { orders := [], state := TState.idle, last_action_price := none,
    last_action_type := none, buy_price := none, sell_prices := [],
    order_id := none, quantity := none, position_active := false,
    last_buy_time := 0, current_market_price := none,
    processed_deal_ids := [], low_balance_notified := false,
    last_notified_balance := none, last_notified_order_size := none,
    low_balance_notified_auto := false, last_notified_order_size_auto := none,
    low_balance_limit_notified := false, last_notified_limit_conditions := none,
    totalProfit := 0, notifCount := 0, tsSaves := 0, orderSaves := 0 }

/-- `send_notification(...)`: observable only as a count here. -/
def notify (s : BotState) : BotState := { s with notifCount := s.notifCount + 1 }

/-- `save_trade_state()`: the persisted fields already live in `BotState`;
record the write. -/
def saveTradeState (s : BotState) : BotState := { s with tsSaves := s.tsSaves + 1 }

/-- `update_trade_state(action_type, price)` (the revert path of
`_execute_buy_and_place_sell` passes `None` for both, hence the options). -/
def updateTradeState (actionType : Option String) (price : Option ℚ) (s : BotState) :
    BotState :=
  saveTradeState { s with last_action_type := actionType, last_action_price := price }

/-- `order_manager.save_orders(order_file, orders)` from inside the bot. -/
def saveActiveOrders (orders : List Order) (s : BotState) : BotState :=
  { s with orders := orders, orderSaves := s.orderSaves + 1 }

/-- A Python `for ... if cond: mutate; break` loop over the order list:
update the first element satisfying `p`. -/
def updFirst (p : Order → Bool) (f : Order → Order) : List Order → List Order
  | [] => []
  | o :: rest => if p o then f o :: rest else o :: updFirst p f rest

/-- Remove an entry from the `sell_prices` dictionary
(`del self.sell_prices[order_id]`). -/
def removeSellPrice (k : String) (l : List (String × ℚ)) : List (String × ℚ) :=
  l.filter (fun kv => kv.1 ≠ k)

/-- Set an entry of the `sell_prices` dictionary. -/
def setSellPrice (k : String) (v : ℚ) (l : List (String × ℚ)) : List (String × ℚ) :=
  removeSellPrice k l ++ [(k, v)]

/-- `self.sell_prices.get(key, default)`. -/
def getSellPrice (l : List (String × ℚ)) (k : Option String) (dflt : ℚ) : ℚ :=
  match k with
  | none => dflt
  | some key => ((l.find? (fun kv => kv.1 == key)).map (fun kv => kv.2)).getD dflt

/-- Per-step environment: everything the outside world feeds one entry
point of the bot.  `now` is `time.time()` in seconds; `balance` is the
value the USDT balance query returns (0 on a failed query, see
`getBalance`); `balCacheHit` selects the cached-value path of
`get_usdt_balance` (which skips the flag resets); `openIds` is the exchange
open-order id list used by `sync_orders`; `buyId`/`sellId` are the order
ids `place_order` returns (`none` = placement failed); `buySfx`/`sellSfx`
are the random parts of the generated client order ids
(`f"BOT_{...}_{...}"`); `checkRes` is what `check_order_status` returns;
`raiseAt` injects an exception into `_execute_buy_and_place_sell` at one of
its numbered raise points. -/
structure Env where
  now : ℚ
  balance : ℚ
  balCacheHit : Bool
  marketPrice : Option ℚ
  openIds : List String
  buyId : Option String
  buySfx : String
  sellId : Option String
  sellSfx : String
  checkRes : Option (String × ℚ)
  raiseAt : Option ℕ
deriving DecidableEq, Repr

/-- `TradingBot.get_usdt_balance`: on a cache hit just return the cached
value; on a miss, reset the low-balance flags when the fresh balance covers
the order size, and return the fresh value. -/
def getUsdtBalance (env : Env) (set : Settings) (s : BotState) : BotState × ℚ :=
  if env.balCacheHit then (s, env.balance)
  else
    let s :=
      if env.balance ≥ set.order_size ∧ (s.low_balance_notified ∨ s.low_balance_notified_auto)
      then { s with low_balance_notified := false, low_balance_notified_auto := false,
                    last_notified_balance := none, last_notified_order_size := none,
                    last_notified_order_size_auto := none }
      else s
    (s, env.balance)

/-- The five in-memory fields snapshotted in `original_state_vars` at the
top of `_execute_buy_and_place_sell`. -/
structure Snapshot where
  buy_price : Option ℚ
  position_active : Bool
  order_id : Option String
  quantity : Option ℚ
  sell_prices : List (String × ℚ)
  last_action_price : Option ℚ
  last_action_type : Option String
deriving DecidableEq, Repr

def snapshotOf (s : BotState) : Snapshot :=
  { buy_price := s.buy_price, position_active := s.position_active,
    order_id := s.order_id, quantity := s.quantity, sell_prices := s.sell_prices,
    last_action_price := s.last_action_price, last_action_type := s.last_action_type }

/-- The `except` block of `_execute_buy_and_place_sell` (lines 183-195):
restore the five snapshotted fields; if `last_action_price` changed,
call `update_trade_state(original_state_vars.get("last_action_type"),
original_state_vars.get("last_action_price_before_helper"))` — note the
snapshot dictionary has no `"last_action_type"` key, so that argument is
`None`; finally notify about the critical error. -/
def helperRevert (orig : Snapshot) (s : BotState) : BotState :=
  let s := { s with buy_price := orig.buy_price, position_active := orig.position_active,
                    order_id := orig.order_id, quantity := orig.quantity,
                    sell_prices := orig.sell_prices }
  let s := if s.last_action_price ≠ orig.last_action_price
           then updateTradeState none orig.last_action_price s
           else s
  notify s

/-- `TradingBot._execute_buy_and_place_sell(current_price, order_size,
trade_type)` (lines 53-195).  Exceptions are injected at the numbered
points: 0 — before anything is mutated; 1 — after `self.quantity` is set,
at the BUY placement; 2 — after the BUY record is saved, at the SELL
placement; 3 — after the SELL record is saved.  Returns the new state and
the boolean result. -/
def execHelper (env : Env) (set : Settings) (s : BotState)
    (current_price order_size : ℚ) (trade_type : String) : BotState × Bool :=
  let orig := snapshotOf s
  if env.raiseAt = some 0 then (helperRevert orig s, false)
  else
    let qty := round2 (order_size / current_price)
    let s := { s with quantity := some qty }
    if env.raiseAt = some 1 then (helperRevert orig s, false)
    else
      match env.buyId with
      | none =>
        -- place_order failed: it sent the failure notification itself.
        (notify s, false)
      | some bId =>
        let s := { s with last_buy_time := env.now, buy_price := some current_price,
                          position_active := true }
        let s := updateTradeState (some "BUY") (some current_price) s
        let buyAmt := round4 (qty * current_price)
        let buyOrder : Order :=
          { order_id := bId, client_order_id := "BOT_" ++ env.buySfx,
            side := "BUY", otype := "MARKET", status := "completed",
            quantity := qty, price := current_price, amount := buyAmt,
            timestamp := ⌊env.now * 1000⌋, profit := 0, notified := false,
            parent_order_id := "", trade_type := trade_type }
        let s := saveActiveOrders (s.orders ++ [buyOrder]) s
        if env.raiseAt = some 2 then (helperRevert orig s, false)
        else
          let sellPrice := round2 (current_price * (1 + set.profit_percent / 100))
          match env.sellId with
          | none =>
            -- place_order notified about the failure, and the helper sends
            -- its own warning; `self.order_id` is pointed at the buy order.
            (notify (notify { s with order_id := some bId }), false)
          | some sId =>
            let s := { s with order_id := some sId }
            let finalSellPrice :=
              match env.checkRes with
              | some (st, p) => if st ≠ "" ∧ p ≠ 0 then round2 p else sellPrice
              | none => sellPrice
            let s := { s with sell_prices := setSellPrice sId finalSellPrice s.sell_prices }
            let sellOrder : Order :=
              { order_id := sId, client_order_id := "BOT_" ++ env.sellSfx,
                side := "SELL", otype := "LIMIT", status := "active",
                quantity := qty, price := finalSellPrice, amount := 0,
                timestamp := ⌊env.now * 1000⌋, profit := 0, notified := false,
                parent_order_id := bId, trade_type := trade_type }
            let s := saveActiveOrders (s.orders ++ [sellOrder]) s
            if env.raiseAt = some 3 then (helperRevert orig s, false)
            else (updateTradeState (some "SELL_ORDER_PLACED") (some finalSellPrice) s, true)

/-- Result of a failed sequence attempt inside `manual_buy` /
`start_trading` / `on_price_update`: if the helper failed, state goes back
to IDLE; on success it becomes AWAITING_NOTIFICATION. -/
def runHelperAndSettle (env : Env) (set : Settings) (s : BotState)
    (price : ℚ) (trade_type : String) : BotState × Bool :=
  let r := execHelper env set s price set.order_size trade_type
  if r.2 then ({ r.1 with state := TState.awaiting_notification }, true)
  else ({ r.1 with state := TState.idle }, false)

/-- `manual_buy` after the balance query: `s` is the (possibly
flag-reset) state `get_usdt_balance` returned, `bal` the returned value. -/
def manualBuyAfterBalance (env : Env) (set : Settings) (s : BotState) (bal : ℚ) :
    BotState × Bool :=
  if bal < set.order_size then
    -- flags/save only when not yet notified for this order size;
    -- the notification itself is sent unconditionally (line 683).
    ({ notify
        (if ¬ s.low_balance_notified ∨ s.last_notified_order_size ≠ some set.order_size then
          saveTradeState { s with low_balance_notified := true,
                                  last_notified_balance := some bal,
                                  last_notified_order_size := some set.order_size }
        else s) with state := TState.idle }, false)
  else
    if (match set.fixed_balance_limit with
        | none => true
        | some lim => decide (lim - getUsedBalance s.orders ≥ set.order_size)) = false then
      ({ notify s with state := TState.idle }, false)
    else
      match env.marketPrice with
      | none => ({ notify s with state := TState.idle }, false)
      | some mp => runHelperAndSettle env set s mp "manual"

/-- The body of `manual_buy` once the state and cooldown guards have
passed: `s` is already in PROCESSING. -/
def manualBuyCore (env : Env) (set : Settings) (s : BotState) : BotState × Bool :=
  manualBuyAfterBalance env set (getUsdtBalance env set s).1 (getUsdtBalance env set s).2

/-- `TradingBot.manual_buy` (lines 658-737).  Returns the new state and the
method's boolean result. -/
def stepManualBuy (env : Env) (set : Settings) (s : BotState) : BotState × Bool :=
  if s.state ≠ TState.idle then (s, false)
  else if env.now - s.last_buy_time < 2 then (notify s, false)
  else manualBuyCore env set { s with state := TState.processing }

/-- The tail of `start_trading` (lines 613-647): market price fetched,
drop trigger computed, the skip check of line 626, and — when the check
does not fire — the buy-then-sell sequence. -/
def startTradingBuyPhase (env : Env) (set : Settings) (s : BotState) (mp : ℚ) :
    BotState × Bool :=
  let dropTrigger : Option ℚ :=
    s.last_action_price.map (fun lap => round4 (lap * (1 - set.drop_percent / 100)))
  let activeSells := s.orders.filter isActiveSellBot
  if activeSells ≠ [] ∧ (dropTrigger = none ∨ ∃ dt, dropTrigger = some dt ∧ mp > dt)
  then
    -- trading resumed but the buy is skipped; the chat message (or,
    -- when formatting fails, the critical-error notification from
    -- the enclosing except block) is one notification either way.
    ({ notify s with state := TState.idle }, false)
  else runHelperAndSettle env set s mp "auto"

/-- The fixed-balance-limit check of `start_trading` (lines 588-611):
returns the updated state and whether the limit allows the buy. -/
def startTradingLimitCheck (set : Settings) (s : BotState) : BotState × Bool :=
  match set.fixed_balance_limit with
  | none => (s, true)
  | some lim =>
    if lim - getUsedBalance s.orders < set.order_size then
      (if ¬ s.low_balance_limit_notified then
        saveTradeState (notify { s with low_balance_limit_notified := true })
      else s, false)
    else (saveTradeState { s with low_balance_limit_notified := false }, true)

/-- `start_trading` after the limit check: fetch the market price and run
the buy phase. -/
def startTradingAfterLimit (env : Env) (set : Settings) (r : BotState × Bool) :
    BotState × Bool :=
  if r.2 = false then ({ r.1 with state := TState.idle }, false)
  else
    match env.marketPrice with
    | none => ({ r.1 with state := TState.idle }, false)
    | some mp => startTradingBuyPhase env set r.1 mp

/-- `start_trading` after the balance query. -/
def startTradingAfterBalance (env : Env) (set : Settings) (s : BotState) (bal : ℚ) :
    BotState × Bool :=
  if bal < set.order_size then
    ({ (if ¬ s.low_balance_notified then
          saveTradeState (notify { s with low_balance_notified := true,
                                          last_notified_balance := some bal })
        else s) with state := TState.idle }, false)
  else startTradingAfterLimit env set (startTradingLimitCheck set s)

/-- The body of `start_trading` once the autobuy, state and cooldown guards
have passed: `s` is already in PROCESSING; the order file is synced first. -/
def startTradingCore (env : Env) (set : Settings) (s : BotState) : BotState × Bool :=
  startTradingAfterBalance env set
    (getUsdtBalance env set (saveActiveOrders (syncOrders env.openIds s.orders) s)).1
    (getUsdtBalance env set (saveActiveOrders (syncOrders env.openIds s.orders) s)).2

/-- `TradingBot.start_trading` (lines 554-656).  The boolean result records
whether a buy-sell sequence completed (the source returns `None`; the flag
is for stating theorems). -/
def stepStartTrading (env : Env) (set : Settings) (s : BotState) : BotState × Bool :=
  if ¬ set.autobuy_enabled then (s, false)
  else if s.state ≠ TState.idle then (s, false)
  else if env.now - s.last_buy_time < 2 then (notify s, false)
  else startTradingCore env set { s with state := TState.processing }

/-- The fixed-balance-limit check of `on_price_update` (lines 880-909),
with its extra `last_notified_limit_conditions` throttle. -/
def tickLimitCheck (set : Settings) (s : BotState) : BotState × Bool :=
  match set.fixed_balance_limit with
  | none => (s, true)
  | some lim =>
    let used := getUsedBalance s.orders
    if lim - used < set.order_size then
      let s :=
        if s.last_notified_limit_conditions ≠ some (used, lim, set.order_size)
        then { s with last_notified_limit_conditions := some (used, lim, set.order_size) }
        else s
      (if ¬ s.low_balance_limit_notified then
        saveTradeState (notify { s with low_balance_limit_notified := true })
      else s, false)
    else
      (saveTradeState { s with low_balance_limit_notified := false,
                               last_notified_limit_conditions := none }, true)

/-- `on_price_update` after the balance query, inside the buying branch. -/
def tickAfterBalance (env : Env) (set : Settings) (s : BotState) (bal price : ℚ) :
    BotState :=
  if bal < set.order_size then
    { (if ¬ s.low_balance_notified_auto
          ∨ s.last_notified_order_size_auto ≠ some set.order_size then
        saveTradeState (notify { s with low_balance_notified_auto := true,
                                        last_notified_balance := some bal,
                                        last_notified_order_size_auto :=
                                          some set.order_size })
      else s) with state := TState.idle }
  else
    let r := tickLimitCheck set s
    if r.2 = false then { r.1 with state := TState.idle }
    else (runHelperAndSettle env set r.1 price "auto").1

/-- The buying branch of `on_price_update` (lines 854-926), entered when
the tick price is at or below the drop trigger while the state is IDLE. -/
def tickBuyPhase (env : Env) (set : Settings) (s : BotState) (price : ℚ) : BotState :=
  tickAfterBalance env set
    (getUsdtBalance env set { s with state := TState.processing }).1
    (getUsdtBalance env set { s with state := TState.processing }).2 price

/-- `on_price_update` after `self.current_market_price` has been set:
trigger computation, flag reset, the state/cooldown/trigger checks, and
the buying branch. -/
def stepTickPriced (env : Env) (set : Settings) (s : BotState) (price : ℚ) : BotState :=
  match s.last_action_price with
  | none => s
  | some lap =>
    let dt := round4 (lap * (1 - set.drop_percent / 100))
    let s :=
      if price > dt ∧ s.low_balance_notified_auto then
        saveTradeState { s with low_balance_notified_auto := false,
                                last_notified_order_size_auto := none }
      else s
    if s.state ≠ TState.idle then s
    else if env.now - s.last_buy_time < 2 then s
    else if price ≤ dt then tickBuyPhase env set s price
    else s

/-- `TradingBot.on_price_update` (lines 827-927). -/
def stepTick (env : Env) (set : Settings) (s : BotState) (price : ℚ) : BotState :=
  if ¬ set.autobuy_enabled then s
  else stepTickPriced env set { s with current_market_price := some price } price

/-- A normalized order push event (`OrderPush`) as consumed by
`TradingBot.on_order_update`.  Numeric fields are `None` when the wire
field was empty (`float(x) if x else None`). -/
structure OrderEvent where
  symbol : String
  clientOrderId : String
  orderId : String
  status : String
  side : String
  orderType : String
  price : Option ℚ
  quantity : Option ℚ
  avgPrice : Option ℚ
  cumQty : Option ℚ
  cumAmt : Option ℚ
  createdTime : ℚ
deriving DecidableEq, Repr

/-- The record inserted by `on_order_update` for an unknown `orderId`
(lines 404-421).  Where the source would stringify `None` (absent
quantity), the events considered here carry the field, so `getD 0` is used. -/
def freshOrderFromPush (e : OrderEvent) (ttype : String) : Order :=
  { order_id := e.orderId, client_order_id := e.clientOrderId,
    side := e.side, otype := e.orderType,
    status := if e.status = "NEW" ∨ e.status = "PARTIALLY_FILLED" then "active" else "completed",
    quantity := e.quantity.getD 0,
    price := match pyOr e.avgPrice e.price with | some v => round2 v | none => 0,
    amount := if truthyQ e.cumAmt && e.status == "FILLED" then e.cumAmt.getD 0 else 0,
    timestamp := ⌊e.createdTime * 1000⌋, profit := 0, notified := false,
    parent_order_id := "", trade_type := ttype }

/-- The per-status mutation of the final reconciliation loop of
`on_order_update` (lines 515-548), applied to the first record matching the
event's order id. -/
def pushStatusMut (e : OrderEvent) (o : Order) : Order :=
  if e.status = "NEW" ∨ e.status = "PARTIALLY_FILLED" then { o with status := "active" }
  else if e.status = "FILLED" then { o with status := "completed" }
  else if e.status = "CANCELED" ∨ e.status = "REJECTED" then { o with status := "completed" }
  else o

/-- `TradingBot.on_order_update` (lines 373-552). -/
def stepOrderPush (e : OrderEvent) (env : Env) (set : Settings) (s : BotState) : BotState :=
  if e.symbol ≠ "SOLUSDT" then s
  else if ¬ strStarts e.clientOrderId "BOT_" then s
  else
    let tradeType :=
      ((s.orders.find? (fun o => o.order_id == e.orderId)).map (fun o => o.trade_type)).getD "auto"
    let orders0 :=
      if s.orders.any (fun o => o.order_id == e.orderId) then s.orders
      else s.orders ++ [freshOrderFromPush e tradeType]
    let s := { s with state := TState.awaiting_notification }
    -- notification branches
    let branchRes : BotState × List Order :=
      if e.orderType == "MARKET" && e.side == "BUY" && e.status == "FILLED" then
        let p := fun (o : Order) => o.order_id == e.orderId && !o.notified
        let s := if orders0.any p then notify s else s
        let orders1 := updFirst p
          (fun o => { o with notified := true,
                             price := round2 ((pyOr e.avgPrice e.price).getD 0),
                             amount := e.cumAmt.getD 0 }) orders0
        (s, orders1)
      else if e.orderType == "LIMIT" && e.side == "SELL" && e.status == "FILLED" then
        let parent :=
          ((orders0.find? (fun o => o.order_id == e.orderId)).map
            (fun o => o.parent_order_id)).getD ""
        match orders0.find? (fun b => b.order_id == parent && b.side == "BUY"
                                        && b.status == "completed") with
        | none => (s, orders0)
        | some b =>
          if b.amount ≠ 0 ∧ truthyQ e.cumAmt = true ∧ b.price ≠ 0 then
            let profit := computeProfit set.taker_fee_percent set.maker_fee_percent
                            b.amount (e.cumAmt.getD 0)
            let p := fun (o : Order) => o.order_id == e.orderId && !o.notified
            let s := if orders0.any p then notify s else s
            let orders1 := updFirst p (fun o => { o with notified := true }) orders0
            let orders2 := updFirst (fun o => o.order_id == e.orderId)
              (fun o => { o with amount := e.cumAmt.getD 0, profit := profit,
                                 price := round2 ((pyOr e.avgPrice e.price).getD 0),
                                 timestamp := ⌊env.now * 1000⌋ }) orders1
            let s := { s with totalProfit := s.totalProfit + profit,
                              sell_prices := removeSellPrice e.orderId s.sell_prices }
            (s, orders2)
          else (s, orders0)
      else (s, orders0)
    let s := branchRes.1
    let orders2 := branchRes.2
    -- final reconciliation loop: status flip plus in-memory field updates
    let orders3 := updFirst (fun o => o.order_id == e.orderId) (pushStatusMut e) orders2
    let s :=
      if e.status = "FILLED" then
        if e.side = "BUY" then
          updateTradeState (some "BUY") (pyOr e.avgPrice e.price)
            { s with position_active := true, buy_price := pyOr e.avgPrice e.price,
                     quantity := e.cumQty, order_id := some e.orderId }
        else if e.side = "SELL" then
          updateTradeState (some "SELL") (pyOr e.avgPrice e.price)
            { s with position_active := false, order_id := none, buy_price := none,
                     quantity := none, low_balance_limit_notified := false }
        else s
      else if e.status = "CANCELED" ∨ e.status = "REJECTED" then
        if s.order_id = some e.orderId then
          notify { s with position_active := false, order_id := none,
                          sell_prices := removeSellPrice e.orderId s.sell_prices }
        else s
      else s
    let s := saveActiveOrders orders3 s
    { s with state := TState.idle }

/-- A normalized trade/fill push event (`DealPush`) as consumed by
`TradingBot.on_deal_update`.  The handler formats `price`, `quantity` and
`amount` into messages unconditionally, so the events in scope carry the
numeric fields (the source would raise on `None` there). -/
structure DealEvent where
  symbol : String
  clientOrderId : String
  orderId : String
  side : String
  tradeId : String
  price : ℚ
  quantity : ℚ
  amount : ℚ
  tradeTime : ℚ
deriving DecidableEq, Repr

/-- The chained buy attempted by `on_deal_update` after the last active
SELL fills (lines 1037-1108).  Whatever happens inside, execution falls out
of the loop afterwards and line 1115 forces the state to IDLE. -/
def dealChainedRebuy (env : Env) (set : Settings) (s : BotState) : BotState :=
  if env.now - s.last_buy_time < 2 then { s with state := TState.idle }
  else
    let s := { s with state := TState.processing }
    let (s, bal) := getUsdtBalance env set s
    if bal < set.order_size then
      let s :=
        if ¬ s.low_balance_notified then
          saveTradeState (notify { s with low_balance_notified := true,
                                          last_notified_balance := some bal })
        else s
      { s with state := TState.idle }
    else
      let limitRes : BotState × Bool :=
        match set.fixed_balance_limit with
        | none => (s, true)
        | some lim =>
          if lim - getUsedBalance s.orders < set.order_size then
            let s :=
              if ¬ s.low_balance_limit_notified then
                saveTradeState (notify { s with low_balance_limit_notified := true })
              else s
            (s, false)
          else (saveTradeState { s with low_balance_limit_notified := false }, true)
      let s := limitRes.1
      if limitRes.2 = false then { s with state := TState.idle }
      else
        match env.marketPrice with
        | none => { s with state := TState.idle }
        | some mp =>
          let r := execHelper env set s mp set.order_size "auto"
          { r.1 with state := TState.idle }

/-- The BUY/MARKET branch of `on_deal_update` (lines 966-983). -/
def dealBuyConfirm (e : DealEvent) (s : BotState) : BotState :=
  { (saveActiveOrders
      (updFirst (fun o => o.order_id == e.orderId && !o.notified)
        (fun o => { o with notified := true, price := round2 e.price,
                           amount := e.amount })
        s.orders)
      (updateTradeState (some "BUY") (some e.price) (notify s)))
    with state := TState.idle }

/-- The record update the SELL/LIMIT branch of `on_deal_update` applies to
the filled sell order (lines 1011-1016). -/
def dealSellMut (e : DealEvent) (env : Env) (profit : ℚ) (o : Order) : Order :=
  { o with notified := true, status := "completed", amount := e.amount,
           profit := profit, price := round2 e.price,
           timestamp := ⌊env.now * 1000⌋ }

/-- After a SELL fill has been folded in: if no active bot-owned SELL
remains and autobuy is on, chain straight into a new buy (lines
1036-1108); either way line 1115 leaves the state IDLE. -/
def dealSellFinish (env : Env) (set : Settings) (orders1 : List Order) (s : BotState) :
    BotState :=
  if (orders1.filter isActiveSellBot) = [] ∧ set.autobuy_enabled = true then
    dealChainedRebuy env set s
  else { s with state := TState.idle }

/-- The SELL/LIMIT branch of `on_deal_update` with the parent BUY found and
the amounts nonzero (lines 996-1034): profit computation, notification,
record update, lifetime-profit update, position clearing. -/
def dealSellApply (e : DealEvent) (env : Env) (set : Settings) (s : BotState)
    (b : Order) : BotState :=
  dealSellFinish env set
    (updFirst (fun o => o.order_id == e.orderId && !o.notified)
      (dealSellMut e env
        (computeProfit set.taker_fee_percent set.maker_fee_percent b.amount e.amount))
      s.orders)
    (saveActiveOrders
      (updFirst (fun o => o.order_id == e.orderId && !o.notified)
        (dealSellMut e env
          (computeProfit set.taker_fee_percent set.maker_fee_percent b.amount e.amount))
        s.orders)
      (updateTradeState (some "SELL") (some e.price)
        (notify { s with
          totalProfit := s.totalProfit
            + computeProfit set.taker_fee_percent set.maker_fee_percent b.amount e.amount,
          sell_prices := removeSellPrice e.orderId s.sell_prices,
          position_active := false, order_id := none,
          buy_price := none, quantity := none,
          low_balance_limit_notified := false })))

/-- The body of `on_deal_update` once the symbol/prefix/duplicate filters
have passed: `s` already carries the recorded `tradeId` and the
AWAITING_NOTIFICATION state; its `orders` are the `orders` list the
handler loops over. -/
def dealDispatch (e : DealEvent) (env : Env) (set : Settings) (s : BotState) : BotState :=
  match s.orders.find? (fun o => o.order_id == e.orderId && !o.notified) with
  | none => { s with state := TState.idle }
  | some cur =>
    if e.side == "BUY" && cur.otype == "MARKET" then dealBuyConfirm e s
    else if e.side == "SELL" && cur.otype == "LIMIT" then
      match s.orders.find? (fun b => b.order_id == cur.parent_order_id && b.side == "BUY"
                                       && b.status == "completed") with
      | none => { (saveActiveOrders s.orders s) with state := TState.idle }
      | some b =>
        if b.amount ≠ 0 ∧ e.amount ≠ 0 ∧ b.price ≠ 0 then
          dealSellApply e env set s b
        else { (saveActiveOrders s.orders s) with state := TState.idle }
    else { s with state := TState.idle }

/-- `TradingBot.on_deal_update` (lines 929-1116). -/
def stepDealPush (e : DealEvent) (env : Env) (set : Settings) (s : BotState) : BotState :=
  if e.symbol ≠ "SOLUSDT" then s
  else if ¬ strStarts e.clientOrderId "BOT_" then s
  else if s.processed_deal_ids.any (fun kv => kv.1 == e.tradeId) then s
  else
    -- record the trade id, reset the balance cache (not modelled), move to
    -- AWAITING_NOTIFICATION, and fold the event into the store
    dealDispatch e env set
      { s with processed_deal_ids := s.processed_deal_ids ++ [(e.tradeId, env.now)],
               state := TState.awaiting_notification }

/-- `TradingBot.cleanup_processed_deal_ids`: one pass of the hourly
retention sweep, keeping ids seen less than 24 hours (86400 s) ago. -/
def cleanupDeals (now : ℚ) (s : BotState) : BotState :=
  { s with processed_deal_ids :=
      s.processed_deal_ids.filter (fun kv => now - kv.2 < 86400) }

/-- The states of the bot reachable from a fresh start by price ticks,
manual buys, autobuy starts and exchange push events, for a fixed settings
record. -/
inductive Reach (set : Settings) : BotState → Prop where
  | init : Reach set initState
  | tick : ∀ env price s, Reach set s → Reach set (stepTick env set s price)
  | manual : ∀ env s, Reach set s → Reach set (stepManualBuy env set s).1
  | autobuy : ∀ env s, Reach set s → Reach set (stepStartTrading env set s).1
  | orderPush : ∀ e env s, Reach set s → Reach set (stepOrderPush e env set s)
  | dealPush : ∀ e env s, Reach set s → Reach set (stepDealPush e env set s)

/-! ## Helper lemmas -/

/-- Association-list lookup after the `load_settings` merge: every schema
key maps to the persisted value when present, to its default otherwise. -/
theorem lookup_mergeSettings (loaded : List (String × SVal)) (defs : List (String × SVal))
    (k : String) (d : SVal) (h : defs.lookup k = some d) :
    (mergeSettings loaded defs).lookup k = some ((loaded.lookup k).getD d) := by
  induction defs with
  | nil => simp [List.lookup] at h
  | cons kd rest ih =>
    rcases kd with ⟨k0, d0⟩
    by_cases hk : k = k0
    · subst hk
      simp [List.lookup] at h
      subst h
      simp [mergeSettings, List.lookup]
    · have hb : (k == k0) = false := by simp [hk]
      simp [List.lookup, hb] at h
      simpa [mergeSettings, List.lookup, hb] using ih h

/-! ## Claim C4 -/

/-- A completed bot-owned SELL sitting in the active file, inside the query
window of the current month. -/
def c4Sell : Order :=
  { order_id := "S1", client_order_id := "BOT_1", side := "SELL", otype := "LIMIT",
    status := "completed", quantity := 1/2, price := 102, amount := 51,
    timestamp := 1000, profit := 39/20, notified := true,
    parent_order_id := "B1", trade_type := "auto" }

/-- C4: `calculate_profit("month", anchor)` is claimed to count every
completed bot-owned SELL of the month exactly once.  It does not: when the
anchor month is the current month the active file is concatenated twice
(`all_orders = orders.copy()` at line 748, then `all_orders.extend(orders)`
at line 786), so the single stored SELL with profit 1.95 is reported as two
trades with total profit 3.9. -/
theorem calc_profit_month_double_counts :
    calcProfitMonth [c4Sell] [] 0 86400000 true = (2, 39/10)
    ∧ ([c4Sell].length = 1 ∧ c4Sell.profit = 39/20) := by
  decide

/-! ## Claim C5 -/

/-- A completed bot-owned SELL present both in the active file and (from a
crash between the two writes of a previous pass) already present in its
month's archive file. -/
def c5Order : Order :=
  { order_id := "X", client_order_id := "BOT_9", side := "SELL", otype := "LIMIT",
    status := "completed", quantity := 1, price := 100, amount := 100,
    timestamp := 500, profit := 1, notified := true,
    parent_order_id := "B", trade_type := "auto" }

/-- C5: the periodic archive pass skips an order whose `order_id` already
exists in the target archive file, but the startup pass
`transfer_completed_orders` appends with no duplicate check: starting from
an archive that already holds order `X` and an active file still holding
the same order, the startup pass leaves two entries with `order_id = "X"`
in the archive (the periodic pass, by contrast, leaves one). -/
theorem startup_archive_pass_duplicates :
    (partitionTransfer [c5Order]).2 = [c5Order]
    ∧ (archiveInsertTransfer [c5Order] (partitionTransfer [c5Order]).2).countP
        (fun o => o.order_id == "X") = 2
    ∧ (archiveInsertDedup [c5Order] (partitionTransfer [c5Order]).2).countP
        (fun o => o.order_id == "X") = 1 := by
  decide

/-! ## Claim C8 -/

/-- A bot-owned SELL that completed 30 seconds ago (well inside the
one-minute grace window), with no live position keeping it. -/
def c8Sell : Order :=
  { order_id := "S8", client_order_id := "BOT_8", side := "SELL", otype := "LIMIT",
    status := "completed", quantity := 1, price := 100, amount := 100,
    timestamp := 970000, profit := 1, notified := false,
    parent_order_id := "B8", trade_type := "auto" }

/-- C8: a completed bot-owned SELL is claimed to stay in the active file
until it has been completed for more than one minute.  The dedicated
grace-window branch of `archive_completed_orders` (age > 60000 ms) is
shadowed by the catch-all `else` that archives every completed order, so a
SELL completed only 30 s ago is archived on the very next pass. -/
theorem archive_pass_ignores_grace_window :
    (partitionArchivePass 1000000 [c8Sell]).1 = []
    ∧ (partitionArchivePass 1000000 [c8Sell]).2 = [c8Sell]
    ∧ 1000000 - c8Sell.timestamp ≤ 60000 := by
  decide

/-! ## Claim C9 -/

/-- C9: loading settings assigns each schema key absent from the persisted
file its default, and keeps the persisted value of each key that is
present; one missing key never disturbs the others. -/
theorem settings_missing_key_falls_back (loaded : List (String × SVal))
    (k : String) (d : SVal) (hd : defaultSettings.lookup k = some d) :
    (loaded.lookup k = none → (loadSettings loaded).lookup k = some d)
    ∧ (∀ v, loaded.lookup k = some v → (loadSettings loaded).lookup k = some v) := by
  constructor
  · intro hnone
    have := lookup_mergeSettings loaded defaultSettings k d hd
    rw [hnone] at this
    exact this
  · intro v hv
    have := lookup_mergeSettings loaded defaultSettings k d hd
    rw [hv] at this
    exact this

/-- Witness for C9: a persisted file with `drop_percent` but no
`maker_fee_percent` loads the default 0 for the fee and keeps the
persisted `drop_percent`. -/
theorem settings_missing_key_falls_back_witness :
    (loadSettings [("drop_percent", SVal.num 3)]).lookup "maker_fee_percent"
        = some (SVal.num 0)
    ∧ (loadSettings [("drop_percent", SVal.num 3)]).lookup "drop_percent"
        = some (SVal.num 3) :=
  ⟨(settings_missing_key_falls_back [("drop_percent", SVal.num 3)]
      "maker_fee_percent" (SVal.num 0) (by decide)).1 (by decide),
   (settings_missing_key_falls_back [("drop_percent", SVal.num 3)]
      "drop_percent" SVal.null (by decide)).2 (SVal.num 3) (by decide)⟩

/-! ## Claim C10 -/

/-- C10: every failed balance query (non-200 status, network error, or any
other exception) makes `get_balance` return 0 — the same value a 200
response reports for a genuinely empty balance — so any positive order
size sees `balance < order_size`, the insufficient-funds branch of the buy
guards. -/
theorem balance_failure_reads_as_zero (r : BalQueryResult) (asset : String)
    (order_size : ℚ) (hfail : balQueryFailed r = true) (hpos : 0 < order_size) :
    getBalance r asset = 0
    ∧ getBalance r asset = getBalance (BalQueryResult.success [(asset, 0)]) asset
    ∧ getBalance r asset < order_size := by
  have hz : getBalance r asset = 0 := by
    cases r with
    | success balances => simp [balQueryFailed] at hfail
    | httpError st => rfl
    | networkError => rfl
    | unexpectedError => rfl
  refine ⟨hz, ?_, ?_⟩
  · rw [hz]
    simp [getBalance, List.lookup]
  · rw [hz]; exact hpos

/-- Witness for C10: an HTTP 500 response with order size 50. -/
theorem balance_failure_reads_as_zero_witness :
    getBalance (BalQueryResult.httpError 500) "USDT" = 0
    ∧ getBalance (BalQueryResult.httpError 500) "USDT"
        = getBalance (BalQueryResult.success [("USDT", 0)]) "USDT"
    ∧ getBalance (BalQueryResult.httpError 500) "USDT" < 50 :=
  balance_failure_reads_as_zero (BalQueryResult.httpError 500) "USDT" 50
    (by decide) (by norm_num)

/-- Both order lists mention only the ids of the second: nothing new was
appended (status flips and deduplication aside). -/
def idsSubset (l1 l2 : List Order) : Prop :=
  ∀ o ∈ l1, ∃ p ∈ l2, p.order_id = o.order_id

theorem idsSubset_refl (l : List Order) : idsSubset l l :=
  fun o ho => ⟨o, ho, rfl⟩

theorem getUsdtBalance_preserves (env : Env) (set : Settings) (s : BotState) :
    (getUsdtBalance env set s).2 = env.balance
    ∧ ((getUsdtBalance env set s).1).orders = s.orders
    ∧ ((getUsdtBalance env set s).1).last_action_price = s.last_action_price := by
  refine ⟨?_, ?_, ?_⟩ <;>
    (unfold getUsdtBalance; split
     · rfl
     · split <;> rfl)

/-- When the skip check of `start_trading` line 626 fires (an active
bot-owned SELL exists and the price is above the trigger, or no trigger is
known), the buy phase leaves the order file untouched. -/
theorem startTradingBuyPhase_skip (env : Env) (set : Settings) (s : BotState) (mp : ℚ)
    (hsell : s.orders.filter isActiveSellBot ≠ [])
    (htrig : ∀ lap, s.last_action_price = some lap →
      mp > round4 (lap * (1 - set.drop_percent / 100))) :
    (startTradingBuyPhase env set s mp).1.orders = s.orders := by
  have hcond : s.orders.filter isActiveSellBot ≠ []
      ∧ (s.last_action_price.map
            (fun lap => round4 (lap * (1 - set.drop_percent / 100))) = none
         ∨ ∃ dt, s.last_action_price.map
            (fun lap => round4 (lap * (1 - set.drop_percent / 100))) = some dt
            ∧ mp > dt) := by
    refine ⟨hsell, ?_⟩
    cases hlap : s.last_action_price with
    | none => exact Or.inl (by simp)
    | some lap =>
      exact Or.inr ⟨round4 (lap * (1 - set.drop_percent / 100)), by simp,
        htrig lap hlap⟩
  simp only [startTradingBuyPhase]
  rw [if_pos hcond]
  rfl

theorem syncOrders_fold_mem (openIds : List String) :
    ∀ (l acc : List Order), ∀ o ∈ l.foldl
      (fun acc o =>
        let o2 := if o.status == "active" && o.side == "SELL" && ¬ openIds.contains o.order_id
                  then { o with status := "completed" } else o
        if acc.any (fun p => p.order_id == o2.order_id) then acc else acc ++ [o2]) acc,
      o ∈ acc ∨ ∃ p ∈ l, p.order_id = o.order_id := by
  intro l
  induction l with
  | nil => intro acc o ho; exact Or.inl ho
  | cons hd tl ih =>
    intro acc o ho
    simp only [List.foldl_cons] at ho
    rcases ih _ o ho with hacc | ⟨p, hp, hpid⟩
    · by_cases hany : (acc.any (fun p => p.order_id ==
        (if hd.status == "active" && hd.side == "SELL" && ¬ openIds.contains hd.order_id
         then { hd with status := "completed" } else hd).order_id)) = true
      · rw [if_pos hany] at hacc
        exact Or.inl hacc
      · rw [if_neg hany] at hacc
        rcases List.mem_append.mp hacc with h1 | h2
        · exact Or.inl h1
        · right
          refine ⟨hd, List.mem_cons_self _ _, ?_⟩
          simp only [List.mem_singleton] at h2
          subst h2
          by_cases hc : (hd.status == "active" && hd.side == "SELL"
              && ¬ openIds.contains hd.order_id) = true
          · rw [if_pos hc]
          · rw [if_neg hc]
    · exact Or.inr ⟨p, List.mem_cons_of_mem _ hp, hpid⟩

/-- `sync_orders` never invents an order id: it only flips statuses and
drops duplicates. -/
theorem syncOrders_idsSubset (openIds : List String) (l : List Order) :
    idsSubset (syncOrders openIds l) l := by
  intro o ho
  rcases syncOrders_fold_mem openIds l [] o ho with h | ⟨p, hp, hpid⟩
  · simp at h
  · exact ⟨p, hp, hpid⟩

theorem startTradingLimitCheck_preserves (set : Settings) (s : BotState) :
    ((startTradingLimitCheck set s).1).orders = s.orders
    ∧ ((startTradingLimitCheck set s).1).last_action_price = s.last_action_price := by
  unfold startTradingLimitCheck
  split
  · exact ⟨rfl, rfl⟩
  · split
    · constructor <;> (split <;> rfl)
    · exact ⟨rfl, rfl⟩

theorem startTradingCore_guard (env : Env) (set : Settings) (s : BotState) (mp : ℚ)
    (hmp : env.marketPrice = some mp)
    (hsell : (syncOrders env.openIds s.orders).filter isActiveSellBot ≠ [])
    (htrig : ∀ lap, s.last_action_price = some lap →
      mp > round4 (lap * (1 - set.drop_percent / 100))) :
    idsSubset (startTradingCore env set s).1.orders s.orders := by
  have hsync : idsSubset (syncOrders env.openIds s.orders) s.orders :=
    syncOrders_idsSubset _ _
  obtain ⟨hbal, hord, hlap⟩ := getUsdtBalance_preserves env set
      (saveActiveOrders (syncOrders env.openIds s.orders) s)
  set s2 := (getUsdtBalance env set
      (saveActiveOrders (syncOrders env.openIds s.orders) s)).1 with hs2def
  have hs2 : idsSubset s2.orders s.orders := by
    rw [show s2.orders = syncOrders env.openIds s.orders from hord]
    exact hsync
  obtain ⟨hlord, hllap⟩ := startTradingLimitCheck_preserves set s2
  have hs3 : idsSubset ((startTradingLimitCheck set s2).1).orders s.orders := by
    rw [hlord]; exact hs2
  have hs3sell : ((startTradingLimitCheck set s2).1).orders.filter isActiveSellBot ≠ [] := by
    rw [hlord, show s2.orders = syncOrders env.openIds s.orders from hord]
    exact hsell
  have hs3trig : ∀ lap, ((startTradingLimitCheck set s2).1).last_action_price = some lap →
      mp > round4 (lap * (1 - set.drop_percent / 100)) := by
    intro lap h
    rw [hllap, show s2.last_action_price = s.last_action_price from hlap] at h
    exact htrig lap h
  unfold startTradingCore
  rw [← hs2def]
  unfold startTradingAfterBalance
  split
  · split <;> exact hs2
  · unfold startTradingAfterLimit
    split
    · exact hs3
    · simp only [hmp]
      show idsSubset (startTradingBuyPhase env set
        (startTradingLimitCheck set s2).1 mp).1.orders s.orders
      intro o ho
      rw [startTradingBuyPhase_skip env set
        (startTradingLimitCheck set s2).1 mp hs3sell hs3trig] at ho
      exact hs3 o ho

/-! ## Claim C1 -/

/-- A plausible settings record: 2 % drop trigger, 1 % take profit, 50 USDT
orders, autobuy on, default fees, no fixed balance limit. -/
def c1Set : Settings :=
  { drop_percent := 2, profit_percent := 1, order_size := 50,
    autobuy_enabled := true, fixed_balance_limit := none,
    taker_fee_percent := 1/20, maker_fee_percent := 0 }

/-- Environment of the first manual buy: ample balance, market at 100,
exchange accepts both orders. -/
def c1EnvA : Env :=
  { now := 100, balance := 1000, balCacheHit := false, marketPrice := some 100,
    openIds := [], buyId := some "B1", buySfx := "1", sellId := some "S1",
    sellSfx := "2", checkRes := none, raiseAt := none }

/-- The exchange's push event confirming the fill of the first market BUY
(this resets the state machine from AWAITING_NOTIFICATION to IDLE). -/
def c1BuyFill : OrderEvent :=
  { symbol := "SOLUSDT", clientOrderId := "BOT_1", orderId := "B1",
    status := "FILLED", side := "BUY", orderType := "MARKET",
    price := some 100, quantity := some (1/2), avgPrice := some 100,
    cumQty := some (1/2), cumAmt := some 50, createdTime := 100 }

/-- Environment of the second manual buy, 100 seconds later. -/
def c1EnvB : Env :=
  { c1EnvA with now := 200, buyId := some "B2", buySfx := "3",
                sellId := some "S2", sellSfx := "4" }

/-- C1 counterexample: a reachable state (manual buy, BUY-fill push, second
manual buy) whose active order file holds TWO orders with
`status = active`, `side = SELL` and a bot-owned client id — `manual_buy`
never checks for an existing active SELL, so the single-position claim
fails.  The second buy-then-sell sequence started while the first active
SELL existed. -/
theorem two_active_sells_reachable :
    Reach c1Set
      (stepManualBuy c1EnvB c1Set
        (stepOrderPush c1BuyFill c1EnvA c1Set
          (stepManualBuy c1EnvA c1Set initState).1)).1
    ∧ ((stepManualBuy c1EnvB c1Set
        (stepOrderPush c1BuyFill c1EnvA c1Set
          (stepManualBuy c1EnvA c1Set initState).1)).1.orders.filter
            isActiveSellBot).length = 2 :=
  ⟨Reach.manual c1EnvB _ (Reach.orderPush c1BuyFill c1EnvA _
      (Reach.manual c1EnvA _ Reach.init)),
   by decide⟩

/-- C1 amended: only the `start_trading` entry point guards against an
existing active SELL, and only when the market price is above the drop
trigger (or no trigger is known): under that guard it appends no order —
every order id in the resulting file already existed.  (The other entry
points start the sequence regardless, whence the counterexample.) -/
theorem start_trading_skips_buy_above_trigger (env : Env) (set : Settings)
    (s : BotState) (mp : ℚ) (hmp : env.marketPrice = some mp)
    (hsell : (syncOrders env.openIds s.orders).filter isActiveSellBot ≠ [])
    (htrig : ∀ lap, s.last_action_price = some lap →
      mp > round4 (lap * (1 - set.drop_percent / 100))) :
    idsSubset (stepStartTrading env set s).1.orders s.orders := by
  unfold stepStartTrading
  split
  · exact idsSubset_refl _
  split
  · exact idsSubset_refl _
  split
  · exact fun o ho => ⟨o, ho, rfl⟩
  exact startTradingCore_guard env set { s with state := TState.processing } mp
    hmp hsell htrig

/-- The state for the C1 witness: one live position (completed BUY plus its
active SELL), last action price 100. -/
def c1WitState : BotState :=
  { initState with
      orders :=
        [{ order_id := "B1", client_order_id := "BOT_1", side := "BUY",
           otype := "MARKET", status := "completed", quantity := 1/2, price := 100,
           amount := 50, timestamp := 100000, profit := 0, notified := true,
           parent_order_id := "", trade_type := "auto" },
         { order_id := "S1", client_order_id := "BOT_2", side := "SELL",
           otype := "LIMIT", status := "active", quantity := 1/2, price := 101,
           amount := 0, timestamp := 100000, profit := 0, notified := false,
           parent_order_id := "B1", trade_type := "auto" }],
      last_action_price := some 100 }

/-- Witness for the amended C1 theorem: market at 99 (above the trigger
98), the active SELL still open on the exchange — `start_trading` appends
nothing. -/
theorem start_trading_skips_buy_above_trigger_witness :
    idsSubset
      (stepStartTrading { c1EnvA with openIds := ["S1"], marketPrice := some 99 }
        c1Set c1WitState).1.orders c1WitState.orders :=
  start_trading_skips_buy_above_trigger
    { c1EnvA with openIds := ["S1"], marketPrice := some 99 } c1Set c1WitState 99
    (by decide)
    (by decide)
    (by
      intro lap h
      have hl : (100 : ℚ) = lap := by
        simpa [c1WitState] using h
      rw [← hl]
      decide)

/-! ## Claim C7 -/

/-- A price tick arriving while the state machine is PROCESSING (at or
below the drop trigger, so it would otherwise start a buy) changes nothing
but the cached market price. -/
theorem stepTickPriced_processing (env : Env) (set : Settings) (s : BotState)
    (price lap : ℚ) (hstate : s.state = TState.processing)
    (hlap : s.last_action_price = some lap)
    (hle : price ≤ round4 (lap * (1 - set.drop_percent / 100))) :
    stepTickPriced env set s price = s := by
  unfold stepTickPriced
  rw [hlap]
  have hflag : ¬ (price > round4 (lap * (1 - set.drop_percent / 100))
      ∧ s.low_balance_notified_auto = true) :=
    fun h => absurd hle (not_le.mpr h.1)
  dsimp only
  rw [if_neg hflag, if_pos (by rw [hstate]; exact fun h => TState.noConfusion h)]

/-- C7: every attempt to start a new buy sequence while the state is
PROCESSING is rejected with no observable effect: `manual_buy` and
`start_trading` return at once with the state record unchanged (so no
order is placed, no order-store or trade-state write happens — the
`orderSaves`/`tsSaves` counters are equal — and every position field keeps
its value), and a triggering price tick changes only the cached
`current_market_price`. -/
theorem processing_rejects_new_sequences (env : Env) (set : Settings) (s : BotState)
    (price lap : ℚ)
    (hstate : s.state = TState.processing)
    (hab : set.autobuy_enabled = true)
    (hlap : s.last_action_price = some lap)
    (hle : price ≤ round4 (lap * (1 - set.drop_percent / 100))) :
    stepManualBuy env set s = (s, false)
    ∧ stepStartTrading env set s = (s, false)
    ∧ stepTick env set s price = { s with current_market_price := some price } := by
  refine ⟨?_, ?_, ?_⟩
  · unfold stepManualBuy
    rw [if_pos (by rw [hstate]; exact fun h => TState.noConfusion h)]
  · unfold stepStartTrading
    rw [if_neg (by simp [hab]),
        if_pos (by rw [hstate]; exact fun h => TState.noConfusion h)]
  · unfold stepTick
    rw [if_neg (by simp [hab])]
    exact stepTickPriced_processing env set _ price lap hstate hlap hle

/-- A mid-sequence state for the C7 witness. -/
def c7State : BotState :=
  { initState with state := TState.processing, last_action_price := some 100 }

/-- Witness for C7 at a concrete PROCESSING state, with a tick at 97
(below the trigger 98). -/
theorem processing_rejects_new_sequences_witness :
    stepManualBuy c1EnvA c1Set c7State = (c7State, false)
    ∧ stepStartTrading c1EnvA c1Set c7State = (c7State, false)
    ∧ stepTick c1EnvA c1Set c7State 97
        = { c7State with current_market_price := some 97 } :=
  processing_rejects_new_sequences c1EnvA c1Set c7State 97 100
    (by decide) (by decide) (by decide) (by decide)

/-! ## Claim C6 -/

theorem helperRevert_fields (orig : Snapshot) (t : BotState) :
    (helperRevert orig t).buy_price = orig.buy_price
    ∧ (helperRevert orig t).position_active = orig.position_active
    ∧ (helperRevert orig t).order_id = orig.order_id
    ∧ (helperRevert orig t).quantity = orig.quantity
    ∧ (helperRevert orig t).sell_prices = orig.sell_prices
    ∧ (helperRevert orig t).orders = t.orders
    ∧ (helperRevert orig t).state = t.state := by
  unfold helperRevert updateTradeState saveTradeState notify
  dsimp only
  split <;> exact ⟨rfl, rfl, rfl, rfl, rfl, rfl, rfl⟩

/-- An exception at any of the modelled raise points of
`_execute_buy_and_place_sell` makes the helper return `False` with the five
snapshotted fields restored, the state field untouched, and the order file
extended by exactly the records written before the raise (0, 0, 1 or 2). -/
theorem execHelper_raised (env : Env) (set : Settings) (s : BotState)
    (cp os : ℚ) (tt : String)
    (h : env.raiseAt = some 0 ∨ env.raiseAt = some 1
       ∨ (env.raiseAt = some 2 ∧ ∃ b, env.buyId = some b)
       ∨ (env.raiseAt = some 3 ∧ (∃ b, env.buyId = some b) ∧ ∃ c, env.sellId = some c)) :
    (execHelper env set s cp os tt).2 = false
    ∧ (execHelper env set s cp os tt).1.buy_price = s.buy_price
    ∧ (execHelper env set s cp os tt).1.position_active = s.position_active
    ∧ (execHelper env set s cp os tt).1.order_id = s.order_id
    ∧ (execHelper env set s cp os tt).1.quantity = s.quantity
    ∧ (execHelper env set s cp os tt).1.sell_prices = s.sell_prices
    ∧ (execHelper env set s cp os tt).1.state = s.state
    ∧ List.IsPrefix s.orders (execHelper env set s cp os tt).1.orders
    ∧ (execHelper env set s cp os tt).1.orders.length
        = s.orders.length + (if env.raiseAt = some 2 then 1
                             else if env.raiseAt = some 3 then 2 else 0) := by
  rcases h with hr | hr | ⟨hr, b, hb⟩ | ⟨hr, ⟨b, hb⟩, c, hc⟩
  · have he : execHelper env set s cp os tt = (helperRevert (snapshotOf s) s, false) := by
      unfold execHelper
      rw [hr, if_pos rfl]
    rw [he, hr]
    obtain ⟨f1, f2, f3, f4, f5, f6, f7⟩ := helperRevert_fields (snapshotOf s) s
    exact ⟨rfl, f1, f2, f3, f4, f5, f7, by rw [f6], by rw [f6]; simp⟩
  · have he : execHelper env set s cp os tt
        = (helperRevert (snapshotOf s)
            { s with quantity := some (round2 (os / cp)) }, false) := by
      unfold execHelper
      rw [hr, if_neg (by decide), if_pos rfl]
    rw [he, hr]
    obtain ⟨f1, f2, f3, f4, f5, f6, f7⟩ := helperRevert_fields (snapshotOf s)
      { s with quantity := some (round2 (os / cp)) }
    exact ⟨rfl, f1, f2, f3, f4, f5, f7, by rw [f6], by rw [f6]; simp⟩
  · unfold execHelper
    rw [hr, hb]
    dsimp only
    rw [if_neg (by decide), if_neg (by decide), if_pos rfl]
    refine ⟨rfl, ?_, ?_, ?_, ?_, ?_, ?_, ?_, ?_⟩ <;>
      (unfold helperRevert updateTradeState saveTradeState notify saveActiveOrders
       dsimp only
       split)
    all_goals first
      | rfl
      | exact ⟨_, rfl⟩
      | simp
  · unfold execHelper
    rw [hr, hb, hc]
    dsimp only
    rw [if_neg (by decide), if_neg (by decide), if_neg (by decide), if_pos rfl]
    refine ⟨rfl, ?_, ?_, ?_, ?_, ?_, ?_, ?_, ?_⟩ <;>
      (unfold helperRevert updateTradeState saveTradeState notify saveActiveOrders
         setSellPrice
       dsimp only
       split)
    all_goals first
      | rfl
      | exact ⟨_, rfl⟩
      | simp

theorem getUsdtBalance_fields (env : Env) (set : Settings) (s : BotState) :
    ((getUsdtBalance env set s).1).buy_price = s.buy_price
    ∧ ((getUsdtBalance env set s).1).position_active = s.position_active
    ∧ ((getUsdtBalance env set s).1).order_id = s.order_id
    ∧ ((getUsdtBalance env set s).1).quantity = s.quantity
    ∧ ((getUsdtBalance env set s).1).sell_prices = s.sell_prices := by
  refine ⟨?_, ?_, ?_, ?_, ?_⟩ <;>
    (unfold getUsdtBalance; split
     · rfl
     · split <;> rfl)

/-- C6: an exception at any point of the buy-then-sell sequence (modelled
raise points: before any mutation, at the BUY placement, after the BUY
record is stored, after the SELL record is stored) leaves `manual_buy`
returning `False` with the state back at IDLE, the in-memory fields
`buy_price`, `position_active`, `order_id`, `quantity` and the
`sell_prices` cache restored to their pre-attempt values, while the order
records appended to the store during the attempt remain (the original
store content is a prefix of the result, whose length grew by exactly the
number of records written before the raise). -/
theorem manual_buy_exception_revert (env : Env) (set : Settings) (s : BotState) (mp : ℚ)
    (hstate : s.state = TState.idle)
    (hcool : ¬ (env.now - s.last_buy_time < 2))
    (hbal : ¬ (env.balance < set.order_size))
    (hlim : set.fixed_balance_limit = none)
    (hmp : env.marketPrice = some mp)
    (hraise : env.raiseAt = some 0 ∨ env.raiseAt = some 1
       ∨ (env.raiseAt = some 2 ∧ ∃ b, env.buyId = some b)
       ∨ (env.raiseAt = some 3 ∧ (∃ b, env.buyId = some b) ∧ ∃ c, env.sellId = some c)) :
    (stepManualBuy env set s).2 = false
    ∧ (stepManualBuy env set s).1.state = TState.idle
    ∧ (stepManualBuy env set s).1.buy_price = s.buy_price
    ∧ (stepManualBuy env set s).1.position_active = s.position_active
    ∧ (stepManualBuy env set s).1.order_id = s.order_id
    ∧ (stepManualBuy env set s).1.quantity = s.quantity
    ∧ (stepManualBuy env set s).1.sell_prices = s.sell_prices
    ∧ List.IsPrefix s.orders (stepManualBuy env set s).1.orders
    ∧ (stepManualBuy env set s).1.orders.length
        = s.orders.length + (if env.raiseAt = some 2 then 1
                             else if env.raiseAt = some 3 then 2 else 0) := by
  have hg := getUsdtBalance_preserves env set { s with state := TState.processing }
  obtain ⟨hg2, hgord, hglap⟩ := hg
  obtain ⟨hf1, hf2, hf3, hf4, hf5⟩ :=
    getUsdtBalance_fields env set { s with state := TState.processing }
  obtain ⟨e1, e2, e3, e4, e5, e6, e7, e8, e9⟩ :=
    execHelper_raised env set
      (getUsdtBalance env set { s with state := TState.processing }).1
      mp set.order_size "manual" hraise
  unfold stepManualBuy
  rw [if_neg (by rw [hstate]; exact fun h => h rfl),
      if_neg hcool]
  unfold manualBuyCore manualBuyAfterBalance
  rw [hg2, if_neg hbal, hlim, hmp]
  dsimp only
  rw [if_neg (by decide)]
  unfold runHelperAndSettle
  dsimp only
  rw [if_neg (by rw [e1]; exact fun h => Bool.noConfusion h)]
  refine ⟨rfl, rfl, e2.trans hf1, e3.trans hf2, e4.trans hf3, e5.trans hf4,
    e6.trans hf5, ?_, ?_⟩
  · rw [hgord] at e8
    exact e8
  · rw [hgord] at e9
    exact e9

/-- Environment for the C6 witness: the exception fires after the BUY
record was stored, while placing the SELL. -/
def c6Env : Env := { c1EnvA with raiseAt := some 2 }

/-- Witness for C6: starting from a fresh IDLE state, the failed attempt
returns to IDLE with all position fields intact and exactly the one BUY
record left behind in the store. -/
theorem manual_buy_exception_revert_witness :
    (stepManualBuy c6Env c1Set initState).2 = false
    ∧ (stepManualBuy c6Env c1Set initState).1.state = TState.idle
    ∧ (stepManualBuy c6Env c1Set initState).1.buy_price = initState.buy_price
    ∧ (stepManualBuy c6Env c1Set initState).1.position_active = initState.position_active
    ∧ (stepManualBuy c6Env c1Set initState).1.order_id = initState.order_id
    ∧ (stepManualBuy c6Env c1Set initState).1.quantity = initState.quantity
    ∧ (stepManualBuy c6Env c1Set initState).1.sell_prices = initState.sell_prices
    ∧ List.IsPrefix initState.orders (stepManualBuy c6Env c1Set initState).1.orders
    ∧ (stepManualBuy c6Env c1Set initState).1.orders.length
        = initState.orders.length + (if c6Env.raiseAt = some 2 then 1
                                     else if c6Env.raiseAt = some 3 then 2 else 0) :=
  manual_buy_exception_revert c6Env c1Set initState 100
    (by decide) (by decide) (by decide) (by decide) (by decide)
    (Or.inr (Or.inr (Or.inl ⟨rfl, "B1", rfl⟩)))

/-! ## Claims C2 and C3 -/

def c2Buy (buyAmt bp : ℚ) : Order :=
  { order_id := "B", client_order_id := "BOT_b", side := "BUY", otype := "MARKET",
    status := "completed", quantity := 1, price := bp, amount := buyAmt,
    timestamp := 0, profit := 0, notified := true, parent_order_id := "",
    trade_type := "auto" }

def c2Sell : Order :=
  { order_id := "S", client_order_id := "BOT_s", side := "SELL", otype := "LIMIT",
    status := "active", quantity := 1, price := 101, amount := 0,
    timestamp := 0, profit := 0, notified := false, parent_order_id := "B",
    trade_type := "auto" }

def c2State (buyAmt bp : ℚ) : BotState :=
  { initState with orders := [c2Buy buyAmt bp, c2Sell] }

def c2Deal (sellAmt : ℚ) : DealEvent :=
  { symbol := "SOLUSDT", clientOrderId := "BOT_s", orderId := "S", side := "SELL",
    tradeId := "T1", price := 102, quantity := 1, amount := sellAmt, tradeTime := 100 }

def c2SetOf (taker maker : ℚ) : Settings :=
  { c1Set with autobuy_enabled := false,
               taker_fee_percent := taker, maker_fee_percent := maker }

def c2Result (buyAmt bp sellAmt taker maker : ℚ) : BotState :=
  { initState with
      orders := [c2Buy buyAmt bp,
        { c2Sell with
            notified := true, status := "completed", amount := sellAmt,
            profit := computeProfit taker maker buyAmt sellAmt, price := round2 102,
            timestamp := 100000 }],
      state := TState.idle,
      processed_deal_ids := [("T1", 100)],
      notifCount := 1, tsSaves := 1, orderSaves := 1,
      totalProfit := 0 + computeProfit taker maker buyAmt sellAmt,
      last_action_price := some 102, last_action_type := some "SELL" }

theorem c2_step_eq (buyAmt bp sellAmt taker maker : ℚ)
    (h1 : buyAmt ≠ 0) (h2 : sellAmt ≠ 0) (h3 : bp ≠ 0) :
    stepDealPush (c2Deal sellAmt) c1EnvA (c2SetOf taker maker) (c2State buyAmt bp)
      = c2Result buyAmt bp sellAmt taker maker := by
  unfold stepDealPush
  rw [if_neg (show ¬ (c2Deal sellAmt).symbol ≠ "SOLUSDT" from fun h => h rfl),
      if_neg (show ¬¬ strStarts (c2Deal sellAmt).clientOrderId "BOT_" = true
        from fun h => h rfl),
      if_neg (by
        rw [show ((c2State buyAmt bp).processed_deal_ids.any
          (fun kv => kv.1 == (c2Deal sellAmt).tradeId)) = false from rfl]
        decide)]
  unfold dealDispatch
  split
  next heq =>
    rw [show List.find?
        (fun o => o.order_id == (c2Deal sellAmt).orderId && !o.notified)
        ({ c2State buyAmt bp with
            processed_deal_ids := (c2State buyAmt bp).processed_deal_ids
              ++ [((c2Deal sellAmt).tradeId, c1EnvA.now)],
            state := TState.awaiting_notification } : BotState).orders
        = some c2Sell from rfl] at heq
    exact Option.noConfusion heq
  next cur heq =>
    rw [show List.find?
        (fun o => o.order_id == (c2Deal sellAmt).orderId && !o.notified)
        ({ c2State buyAmt bp with
            processed_deal_ids := (c2State buyAmt bp).processed_deal_ids
              ++ [((c2Deal sellAmt).tradeId, c1EnvA.now)],
            state := TState.awaiting_notification } : BotState).orders
        = some c2Sell from rfl] at heq
    injection heq with heq
    subst heq
    rw [if_neg (show ¬ ((c2Deal sellAmt).side == "BUY" && c2Sell.otype == "MARKET")
          = true from fun h => Bool.noConfusion h),
        if_pos (show ((c2Deal sellAmt).side == "SELL" && c2Sell.otype == "LIMIT")
          = true from rfl)]
    split
    next heq2 =>
      rw [show List.find? (fun b => b.order_id == c2Sell.parent_order_id
          && b.side == "BUY" && b.status == "completed")
          ({ c2State buyAmt bp with
              processed_deal_ids := (c2State buyAmt bp).processed_deal_ids
                ++ [((c2Deal sellAmt).tradeId, c1EnvA.now)],
              state := TState.awaiting_notification } : BotState).orders
          = some (c2Buy buyAmt bp) from rfl] at heq2
      exact Option.noConfusion heq2
    next b heq2 =>
      rw [show List.find? (fun b => b.order_id == c2Sell.parent_order_id
          && b.side == "BUY" && b.status == "completed")
          ({ c2State buyAmt bp with
              processed_deal_ids := (c2State buyAmt bp).processed_deal_ids
                ++ [((c2Deal sellAmt).tradeId, c1EnvA.now)],
              state := TState.awaiting_notification } : BotState).orders
          = some (c2Buy buyAmt bp) from rfl] at heq2
      injection heq2 with heq2
      subst heq2
      rw [if_pos (show (c2Buy buyAmt bp).amount ≠ 0 ∧ (c2Deal sellAmt).amount ≠ 0
        ∧ (c2Buy buyAmt bp).price ≠ 0 from ⟨h1, h2, h3⟩)]
      unfold dealSellApply dealSellFinish
      rw [if_neg (by
        rw [show (c2SetOf taker maker).autobuy_enabled = false from rfl]
        simp)]
      rfl


/-- C2: folding in a SELL fill whose parent BUY is found completed records
exactly `round(sell - (buy + buy*taker/100 + sell*maker/100), 4)` as the
order's profit; with `buy=100, sell=102, taker=0.05 %, maker=0 %` that is
1.95. -/
theorem sell_fill_records_profit_formula (buyAmt bp sellAmt taker maker : ℚ)
    (h1 : buyAmt ≠ 0) (h2 : sellAmt ≠ 0) (h3 : bp ≠ 0) :
    ((stepDealPush (c2Deal sellAmt) c1EnvA (c2SetOf taker maker)
        (c2State buyAmt bp)).orders.find? (fun o => o.order_id == "S")).map
          (fun o => o.profit)
      = some (computeProfit taker maker buyAmt sellAmt)
    ∧ (stepDealPush (c2Deal sellAmt) c1EnvA (c2SetOf taker maker)
        (c2State buyAmt bp)).totalProfit
      = (c2State buyAmt bp).totalProfit + computeProfit taker maker buyAmt sellAmt
    ∧ computeProfit (1/20) 0 100 102 = 39/20 := by
  rw [c2_step_eq buyAmt bp sellAmt taker maker h1 h2 h3]
  exact ⟨rfl, rfl, by decide⟩

/-- Witness for C2 at the spec's concrete numbers. -/
theorem sell_fill_records_profit_formula_witness :
    ((stepDealPush (c2Deal 102) c1EnvA (c2SetOf (1/20) 0)
        (c2State 100 100)).orders.find? (fun o => o.order_id == "S")).map
          (fun o => o.profit)
      = some (computeProfit (1/20) 0 100 102)
    ∧ (stepDealPush (c2Deal 102) c1EnvA (c2SetOf (1/20) 0)
        (c2State 100 100)).totalProfit
      = (c2State 100 100).totalProfit + computeProfit (1/20) 0 100 102
    ∧ computeProfit (1/20) 0 100 102 = 39/20 :=
  sell_fill_records_profit_formula 100 100 102 (1/20) 0
    (by decide) (by decide) (by decide)

/-- C3: a deal event whose `tradeId` was already processed is dropped with
the state bit-for-bit unchanged; concretely, the first delivery of a SELL
fill adds its profit to the lifetime total once and sends one
notification, and the second delivery — directly, or after any retention
sweep within 24 h — changes nothing. -/
theorem duplicate_deal_changes_nothing :
    (∀ (e : DealEvent) (env : Env) (set : Settings) (s : BotState),
      s.processed_deal_ids.any (fun kv => kv.1 == e.tradeId) = true →
      stepDealPush e env set s = s)
    ∧ (stepDealPush (c2Deal 102) c1EnvA (c2SetOf (1/20) 0)
        (c2State 100 100)).totalProfit = (c2State 100 100).totalProfit + 39/20
    ∧ (stepDealPush (c2Deal 102) c1EnvA (c2SetOf (1/20) 0)
        (c2State 100 100)).notifCount = (c2State 100 100).notifCount + 1
    ∧ stepDealPush (c2Deal 102) c1EnvB (c2SetOf (1/20) 0)
        (stepDealPush (c2Deal 102) c1EnvA (c2SetOf (1/20) 0) (c2State 100 100))
      = stepDealPush (c2Deal 102) c1EnvA (c2SetOf (1/20) 0) (c2State 100 100)
    ∧ ∀ now2 : ℚ, now2 - 100 < 86400 →
        stepDealPush (c2Deal 102) c1EnvB (c2SetOf (1/20) 0)
          (cleanupDeals now2
            (stepDealPush (c2Deal 102) c1EnvA (c2SetOf (1/20) 0) (c2State 100 100)))
        = cleanupDeals now2
            (stepDealPush (c2Deal 102) c1EnvA (c2SetOf (1/20) 0) (c2State 100 100)) := by
  have ha : ∀ (e : DealEvent) (env : Env) (set : Settings) (s : BotState),
      s.processed_deal_ids.any (fun kv => kv.1 == e.tradeId) = true →
      stepDealPush e env set s = s := by
    intro e env set s hmem
    unfold stepDealPush
    by_cases hs1 : e.symbol ≠ "SOLUSDT"
    · rw [if_pos hs1]
    · rw [if_neg hs1]
      by_cases hs2 : ¬ strStarts e.clientOrderId "BOT_" = true
      · rw [if_pos hs2]
      · rw [if_neg hs2, if_pos hmem]
  have hstep : stepDealPush (c2Deal 102) c1EnvA (c2SetOf (1/20) 0) (c2State 100 100)
      = c2Result 100 100 102 (1/20) 0 :=
    c2_step_eq 100 100 102 (1/20) 0 (by decide) (by decide) (by decide)
  refine ⟨ha, ?_, ?_, ?_, ?_⟩
  · rw [hstep]; decide
  · rw [hstep]; decide
  · rw [hstep]
    exact ha _ _ _ _ (by decide)
  · intro now2 hlt
    rw [hstep]
    have hcl : cleanupDeals now2 (c2Result 100 100 102 (1/20) 0)
        = c2Result 100 100 102 (1/20) 0 := by
      unfold cleanupDeals
      rw [show List.filter (fun kv => decide (now2 - kv.2 < 86400))
        (c2Result 100 100 102 (1/20) 0).processed_deal_ids
        = [("T1", 100)] by simp [c2Result, initState, List.filter, hlt]]
      rfl
    rw [hcl]
    exact ha _ _ _ _ (by decide)


/-- Witness for C3: re-delivering the already processed trade to the state
after the first delivery is the identity. -/
theorem duplicate_deal_changes_nothing_witness :
    stepDealPush (c2Deal 102) c1EnvB (c2SetOf (1/20) 0)
      (c2Result 100 100 102 (1/20) 0) = c2Result 100 100 102 (1/20) 0 :=
  duplicate_deal_changes_nothing.1 (c2Deal 102) c1EnvB (c2SetOf (1/20) 0)
    (c2Result 100 100 102 (1/20) 0) (by decide)
